import Mathlib

/-!
Shallow embedding of the OpenRelik API client core
(`openrelik_api_client/api_client.py` and `openrelik_api_client/workflows.py`):
the chunked file uploader `APIClient.upload_file`, the 401-intercepting
`TokenRefreshSession` (its `request` override and `_refresh_token`), and the
workflow CRUD operations.  HTTP transport is modelled by an oracle (`Server`)
mapping the index of the wire call, the request and the current session
headers to an optional response (`none` models a transport-level
`RequestException`).  File I/O is modelled by the file's byte contents.
-/

namespace OpenRelik

/-- An HTTP response as the client observes it: the status code and the three
JSON fields the client ever reads (`id`, `new_access_token`) plus the raw
parsed body (opaque). -/
structure Response where
  status_code : Nat
  json_id : Option Int := none
  json_new_access_token : Option String := none
  json_body : String := ""
deriving Repr, DecidableEq

/-- Python truthiness of a `requests.Response` (`Response.__bool__` is
`self.ok`): true iff the status code is below 400. -/
def Response.ok (r : Response) : Bool := r.status_code < 400

/-- The constant `chunk_size = 1024000  # 1 MB` from `APIClient.upload_file`. -/
def chunk_size : Nat := 1024000

/-- Python `math.ceil(total_size / chunk_size)` on natural numbers. -/
def mathCeilDiv (a b : Nat) : Nat := (a + b - 1) / b

/-- One chunk POST to `/files/upload`: the string-encoded query parameters
and the chunk bytes carried in the multipart body. -/
structure ChunkRequest where
  resumableChunkNumber : Nat
  resumableTotalChunks : Nat
  resumableIdentifier : String
  resumableFilename : String
  folder_id : Int
  data : List Nat
deriving Repr, DecidableEq

/-- Server-side behaviour seen by one upload: the response to the
folder-existence GET and the response to the n-th chunk POST (1-based). -/
structure UploadEnv where
  folderResponse : Response
  chunkResponse : Nat → Response

/-- Outcome of `upload_file`: either the `FileNotFoundError` raise, or a
returned value.  The returned value is `Option Int` because
`response.json().get('id')` may be Python `None`; the `-1` sentinel is
`some (-1)`. -/
inductive UploadResult where
  | raisedFileNotFound
  | returned (file_id : Option Int)
deriving Repr, DecidableEq

/-- Observable trace of one `upload_file` call: whether the folder-existence
GET was issued, the chunk POSTs issued in order, and the outcome. -/
structure UploadTrace where
  folderCheck : Bool
  chunkRequests : List ChunkRequest
  result : UploadResult
deriving Repr, DecidableEq

/-- The reads `fh.read(chunk_size)` of the upload loop: the file contents
split into successive `chunk_size`-byte pieces (the last may be shorter);
the loop stops at the first empty read. -/
def readChunks (l : List Nat) : List (List Nat) :=
  if h : l = [] then []
  else l.take chunk_size :: readChunks (l.drop chunk_size)
termination_by l.length
decreasing_by
  simp only [List.length_drop, chunk_size]
  have hl : 0 < l.length := List.length_pos.mpr h
  omega

/-- The `while chunk := fh.read(chunk_size)` loop of `upload_file`: walks the
chunks, numbering them from `n + 1`, issuing one POST per chunk, and keeping
the Python variable `response` (the last response seen, `none` when still the
initial `None`).  Returns the list of chunk requests issued and the final
value of `response`. -/
def uploadLoop (env : UploadEnv) (total : Nat) (ident fname : String) (fid : Int) :
    List (List Nat) → Nat → Option Response → List ChunkRequest × Option Response
  | [], _, last => ([], last)
  | c :: rest, n, _ =>
      let resp := env.chunkResponse (n + 1)
      let pr := uploadLoop env total ident fname fid rest (n + 1) (some resp)
      ({ resumableChunkNumber := n + 1, resumableTotalChunks := total,
         resumableIdentifier := ident, resumableFilename := fname,
         folder_id := fid, data := c } :: pr.1, pr.2)

/-- Model of `APIClient.upload_file`.  Inputs: whether the local file exists, its byte
contents, its name, the generated `uuid4().hex` identifier, the `folder_id`
argument (Python truthiness: the check runs iff it is nonzero), and the
server behaviour.  Mirrors the source: existence check and
`FileNotFoundError`; folder-existence GET with early `-1` return on 404;
chunked POST loop; final `if response and response.status_code == 201`. -/
def upload_file (file_exists : Bool) (contents : List Nat) (fname ident : String)
    (folder_id : Int) (env : UploadEnv) : UploadTrace :=
  if file_exists = false then
    { folderCheck := false, chunkRequests := [], result := .raisedFileNotFound }
  else if folder_id ≠ 0 ∧ env.folderResponse.status_code = 404 then
    { folderCheck := true, chunkRequests := [], result := .returned (some (-1)) }
  else
    let initResp : Option Response :=
      if folder_id ≠ 0 then some env.folderResponse else none
    let total := mathCeilDiv contents.length chunk_size
    let pr := uploadLoop env total ident fname folder_id (readChunks contents) 0 initResp
    { folderCheck := decide (folder_id ≠ 0),
      chunkRequests := pr.1,
      result := .returned (match pr.2 with
        | some r => if r.ok ∧ r.status_code = 201 then r.json_id else some (-1)
        | none => some (-1)) }

/-- The session headers the client ever touches: the static
`x-openrelik-refresh-token` and the dynamic `x-openrelik-access-token`. -/
structure Headers where
  refresh_token : Option String := none
  access_token : Option String := none
deriving Repr, DecidableEq

/-- A request as handed to the underlying transport: method, URL and the
remaining keyword options (opaque). -/
structure HttpRequest where
  method : String
  url : String
  options : String := ""
deriving Repr, DecidableEq

/-- One call that actually hits the wire (`requests.Session.request`),
together with the session headers in force at that moment. -/
structure WireCall where
  method : String
  url : String
  options : String := ""
  headers : Headers
deriving Repr, DecidableEq

/-- Server/transport oracle: given the index of the wire call (0-based over
the whole interaction), the request and the session headers, produce a
response, or `none` for a transport-level `RequestException`. -/
def Server : Type := Nat → HttpRequest → Headers → Option Response

/-- Outcome of `TokenRefreshSession.request`: a returned response, a
propagated transport `RequestException`, the
`Exception("Token refresh failed")` raise, or fuel exhaustion (marking a
non-terminating recursion through the refresh path). -/
inductive ReqOutcome where
  | resp (r : Response)
  | connError
  | refreshExc
  | outOfFuel
deriving Repr, DecidableEq

/-- Result of one `TokenRefreshSession.request` call: its outcome, the
session headers afterwards, the wire calls it caused (in order), and the
next wire-call index. -/
structure ReqResult where
  outcome : ReqOutcome
  headers : Headers
  calls : List WireCall
  next : Nat
deriving Repr, DecidableEq

/-- Outcome of `TokenRefreshSession._refresh_token`: a returned boolean, a
propagated `Exception("Token refresh failed")` from the nested request (not
a `RequestException`, hence not caught), or fuel exhaustion. -/
inductive RefreshOutcome where
  | returned (b : Bool)
  | raised
  | outOfFuel
deriving Repr, DecidableEq

/-- Result of one `_refresh_token` call. -/
structure RefreshResult where
  outcome : RefreshOutcome
  headers : Headers
  calls : List WireCall
  next : Nat
deriving Repr, DecidableEq

/-- Python `response.raise_for_status()` raises `HTTPError` (a `RequestException`)
exactly for 4xx and 5xx status codes. -/
def raise_for_status_errors (r : Response) : Bool :=
  400 ≤ r.status_code && r.status_code < 600

/-- The fixed refresh URL `f"{self.api_server_url}/auth/refresh"`. -/
def refreshUrl (api_server_url : String) : String :=
  api_server_url ++ "/auth/refresh"

/-- The body of `_refresh_token` after its `self.get(refresh_url)` call has
produced `rr`: `raise_for_status` plus the header update inside
`try ... except RequestException`.  A `RequestException` (transport error or
4xx/5xx) yields `False`; a non-error response stores
`response.json().get("new_access_token")` as the access-token header and
yields `True`; the nested `Exception("Token refresh failed")` is not a
`RequestException` and propagates. -/
def processRefresh (rr : ReqResult) : RefreshResult :=
  match rr.outcome with
  | .resp r =>
      if raise_for_status_errors r then
        { outcome := .returned false, headers := rr.headers, calls := rr.calls, next := rr.next }
      else
        { outcome := .returned true,
          headers := { rr.headers with access_token := r.json_new_access_token },
          calls := rr.calls, next := rr.next }
  | .connError =>
      { outcome := .returned false, headers := rr.headers, calls := rr.calls, next := rr.next }
  | .refreshExc =>
      { outcome := .raised, headers := rr.headers, calls := rr.calls, next := rr.next }
  | .outOfFuel =>
      { outcome := .outOfFuel, headers := rr.headers, calls := rr.calls, next := rr.next }

/-- The 401 branch of `TokenRefreshSession.request` after `_refresh_token`
has produced `rr`: on `True` retry the original request once with the
(updated) session headers and return that response as-is; on `False` raise
`Exception("Token refresh failed")`; propagate a nested raise; propagate
fuel exhaustion. -/
def retryStep (srv : Server) (method url options : String) (call : WireCall)
    (rr : RefreshResult) : ReqResult :=
  match rr.outcome with
  | .returned true =>
      let call2 : WireCall :=
        { method := method, url := url, options := options, headers := rr.headers }
      match srv rr.next { method := method, url := url, options := options } rr.headers with
      | none =>
          { outcome := .connError, headers := rr.headers,
            calls := call :: rr.calls ++ [call2], next := rr.next + 1 }
      | some r2 =>
          { outcome := .resp r2, headers := rr.headers,
            calls := call :: rr.calls ++ [call2], next := rr.next + 1 }
  | .returned false =>
      { outcome := .refreshExc, headers := rr.headers, calls := call :: rr.calls, next := rr.next }
  | .raised =>
      { outcome := .refreshExc, headers := rr.headers, calls := call :: rr.calls, next := rr.next }
  | .outOfFuel =>
      { outcome := .outOfFuel, headers := rr.headers, calls := call :: rr.calls, next := rr.next }

/-- Model of `TokenRefreshSession.request`: send the request through the underlying
transport; on a 401 response run `self._refresh_token()` and then
`retryStep`.  Since `_refresh_token`'s only HTTP call is `self.get`, which
routes back through this very method, the mutual recursion is expressed by
inlining `_refresh_token`'s body (`processRefresh` of the recursive
`request` on the refresh URL); `fuel` bounds the recursion depth and
`outOfFuel` marks executions the Python code would not complete. -/
def TokenRefreshSession.request (srv : Server) (api : String) :
    Nat → Nat → Headers → String → String → String → ReqResult
  | 0, k, h, method, url, options =>
      match srv k { method := method, url := url, options := options } h with
      | none =>
          { outcome := .connError, headers := h,
            calls := [{ method := method, url := url, options := options, headers := h }],
            next := k + 1 }
      | some r1 =>
          if r1.status_code = 401 then
            { outcome := .outOfFuel, headers := h,
              calls := [{ method := method, url := url, options := options, headers := h }],
              next := k + 1 }
          else
            { outcome := .resp r1, headers := h,
              calls := [{ method := method, url := url, options := options, headers := h }],
              next := k + 1 }
  | fuel + 1, k, h, method, url, options =>
      match srv k { method := method, url := url, options := options } h with
      | none =>
          { outcome := .connError, headers := h,
            calls := [{ method := method, url := url, options := options, headers := h }],
            next := k + 1 }
      | some r1 =>
          if r1.status_code = 401 then
            retryStep srv method url options
              { method := method, url := url, options := options, headers := h }
              (processRefresh
                (TokenRefreshSession.request srv api fuel (k + 1) h
                  ("GET") (refreshUrl api) ("")))
          else
            { outcome := .resp r1, headers := h,
              calls := [{ method := method, url := url, options := options, headers := h }],
              next := k + 1 }

/-- Model of `TokenRefreshSession._refresh_token`: a GET to the refresh URL through
the session's own `request` (hence 401-intercepting), followed by the
`try/except` post-processing `processRefresh`. -/
def TokenRefreshSession._refresh_token (srv : Server) (api : String)
    (fuel k : Nat) (h : Headers) : RefreshResult :=
  processRefresh
    (TokenRefreshSession.request srv api fuel k h ("GET") (refreshUrl api) (""))

/-- Unfolding of `request` at positive fuel, phrased through
`_refresh_token` (definitional). -/
theorem request_succ (srv : Server) (api : String) (fuel k : Nat) (h : Headers)
    (method url options : String) :
    TokenRefreshSession.request srv api (fuel + 1) k h method url options =
      (match srv k { method := method, url := url, options := options } h with
        | none =>
            { outcome := .connError, headers := h,
              calls := [{ method := method, url := url, options := options, headers := h }],
              next := k + 1 }
        | some r1 =>
            if r1.status_code = 401 then
              retryStep srv method url options
                { method := method, url := url, options := options, headers := h }
                (TokenRefreshSession._refresh_token srv api fuel (k + 1) h)
            else
              { outcome := .resp r1, headers := h,
                calls := [{ method := method, url := url, options := options, headers := h }],
                next := k + 1 }) := by
  conv_lhs => unfold TokenRefreshSession.request
  rfl

/-- Unfolding of `request` at zero fuel. -/
theorem request_zero (srv : Server) (api : String) (k : Nat) (h : Headers)
    (method url options : String) :
    TokenRefreshSession.request srv api 0 k h method url options =
      (match srv k { method := method, url := url, options := options } h with
        | none =>
            { outcome := .connError, headers := h,
              calls := [{ method := method, url := url, options := options, headers := h }],
              next := k + 1 }
        | some r1 =>
            if r1.status_code = 401 then
              { outcome := .outOfFuel, headers := h,
                calls := [{ method := method, url := url, options := options, headers := h }],
                next := k + 1 }
            else
              { outcome := .resp r1, headers := h,
                calls := [{ method := method, url := url, options := options, headers := h }],
                next := k + 1 }) := by
  conv_lhs => unfold TokenRefreshSession.request

/-- Outcome of a Python method that either returns a value or raises
`RuntimeError` with a message. -/
inductive PyOutcome (α : Type) where
  | returns (v : α)
  | raisesRuntimeError (msg : String)
deriving Repr, DecidableEq

/-- Model of `WorkflowsAPI.get_workflow`, as a function of the response to its GET:
returns the parsed body on 200, and falls off the end (returning Python
`None`, modelled as `none`) on every other status. -/
def get_workflow (response : Response) : PyOutcome (Option String) :=
  if response.status_code = 200 then .returns (some response.json_body)
  else .returns none

/-- Model of `WorkflowsAPI.update_workflow`, as a function of the response to its
PATCH: returns the parsed body on 200, raises `RuntimeError` otherwise. -/
def update_workflow (response : Response) : PyOutcome (Option String) :=
  if response.status_code = 200 then .returns (some response.json_body)
  else .raisesRuntimeError ("Error updating workflow.")

/-- Model of `WorkflowsAPI.delete_workflow`, as a function of the response to its
DELETE: returns `response.status_code == 204` and never raises. -/
def delete_workflow (response : Response) : PyOutcome Bool :=
  .returns (response.status_code == 204)

/-- Model of `WorkflowsAPI.run_workflow`, as a function of the response to its POST:
returns the parsed body on 200, raises `RuntimeError` otherwise. -/
def run_workflow (response : Response) : PyOutcome (Option String) :=
  if response.status_code = 200 then .returns (some response.json_body)
  else .raisesRuntimeError ("Error running workflow.")

/-! ## Helper lemmas about the upload arithmetic and loop -/

theorem mathCeilDiv_step (n c : Nat) (hc : 0 < c) (hn : 0 < n) :
    mathCeilDiv n c = mathCeilDiv (n - c) c + 1 := by
  unfold mathCeilDiv
  have h1 : n + c - 1 = (n - 1) + c := by omega
  rw [h1, Nat.add_div_right _ hc]
  by_cases h : n ≤ c
  · have h2 : n - c = 0 := by omega
    have h3 : (n - 1) / c = 0 := Nat.div_eq_of_lt (by omega)
    rw [h2]
    have h4 : (0 + c - 1) / c = 0 := Nat.div_eq_of_lt (by omega)
    rw [h3, h4]
  · have h2 : n - c + c - 1 = (n - c - 1) + c := by omega
    have h3 : n - 1 = (n - c - 1) + c := by omega
    rw [h2, Nat.add_div_right _ hc, h3, Nat.add_div_right _ hc]

theorem readChunks_eq (l : List Nat) :
    readChunks l =
      if l = [] then [] else l.take chunk_size :: readChunks (l.drop chunk_size) := by
  conv_lhs => unfold readChunks
  by_cases h : l = [] <;> simp [h]

theorem readChunks_length (l : List Nat) :
    (readChunks l).length = mathCeilDiv l.length chunk_size := by
  rw [readChunks_eq]
  by_cases h : l = []
  · subst h
    simp [mathCeilDiv, chunk_size]
  · have hl : 0 < l.length := List.length_pos.mpr h
    rw [if_neg h, List.length_cons, readChunks_length (l.drop chunk_size),
      List.length_drop, mathCeilDiv_step l.length chunk_size (by norm_num [chunk_size]) hl]
termination_by l.length
decreasing_by
  simp only [List.length_drop, chunk_size]
  omega

theorem readChunks_flatten (l : List Nat) : (readChunks l).flatten = l := by
  rw [readChunks_eq]
  by_cases h : l = []
  · simp [h]
  · have hl : 0 < l.length := List.length_pos.mpr h
    rw [if_neg h, List.flatten_cons, readChunks_flatten (l.drop chunk_size),
      List.take_append_drop]
termination_by l.length
decreasing_by
  simp only [List.length_drop, chunk_size]
  omega

theorem readChunks_chunk_le (l : List Nat) :
    ∀ c ∈ readChunks l, c.length ≤ chunk_size := by
  rw [readChunks_eq]
  by_cases h : l = []
  · simp [h]
  · have hl : 0 < l.length := List.length_pos.mpr h
    rw [if_neg h]
    intro c hc
    rcases List.mem_cons.mp hc with h1 | h2
    · subst h1
      rw [List.length_take]
      exact min_le_left _ _
    · exact readChunks_chunk_le (l.drop chunk_size) c h2
termination_by l.length
decreasing_by
  simp only [List.length_drop, chunk_size]
  omega

theorem readChunks_dropLast_full (l : List Nat) :
    ∀ c ∈ (readChunks l).dropLast, c.length = chunk_size := by
  rw [readChunks_eq]
  by_cases h : l = []
  · simp [h]
  · have hl : 0 < l.length := List.length_pos.mpr h
    rw [if_neg h]
    by_cases h2 : l.drop chunk_size = []
    · rw [readChunks_eq, if_pos h2]
      simp
    · have hne : readChunks (l.drop chunk_size) ≠ [] := by
        rw [readChunks_eq, if_neg h2]
        simp
      have hlen : chunk_size ≤ l.length := by
        by_contra hh
        push_neg at hh
        exact h2 (List.drop_eq_nil_of_le (le_of_lt hh))
      rw [List.dropLast_cons_of_ne_nil hne]
      intro c hc
      rcases List.mem_cons.mp hc with h1 | h3
      · subst h1
        rw [List.length_take]
        omega
      · exact readChunks_dropLast_full (l.drop chunk_size) c h3
termination_by l.length
decreasing_by
  simp only [List.length_drop, chunk_size]
  omega

theorem readChunks_ne_nil (l : List Nat) (h : l ≠ []) : readChunks l ≠ [] := by
  rw [readChunks_eq, if_neg h]
  simp

theorem uploadLoop_length (env : UploadEnv) (total : Nat) (ident fname : String)
    (fid : Int) (cs : List (List Nat)) (n : Nat) (last : Option Response) :
    (uploadLoop env total ident fname fid cs n last).1.length = cs.length := by
  induction cs generalizing n last with
  | nil => rfl
  | cons c rest ih => simp [uploadLoop, ih]

theorem uploadLoop_numbers (env : UploadEnv) (total : Nat) (ident fname : String)
    (fid : Int) (cs : List (List Nat)) (n : Nat) (last : Option Response) :
    (uploadLoop env total ident fname fid cs n last).1.map
        (fun q => q.resumableChunkNumber) = List.range' (n + 1) cs.length := by
  induction cs generalizing n last with
  | nil => rfl
  | cons c rest ih => simp [uploadLoop, ih, List.range'_succ]

theorem uploadLoop_total (env : UploadEnv) (total : Nat) (ident fname : String)
    (fid : Int) (cs : List (List Nat)) (n : Nat) (last : Option Response) :
    ∀ q ∈ (uploadLoop env total ident fname fid cs n last).1,
      q.resumableTotalChunks = total := by
  induction cs generalizing n last with
  | nil => intro q hq; cases hq
  | cons c rest ih =>
      intro q hq
      rcases List.mem_cons.mp hq with h1 | h2
      · subst h1; rfl
      · exact ih (n + 1) _ q h2

theorem uploadLoop_data (env : UploadEnv) (total : Nat) (ident fname : String)
    (fid : Int) (cs : List (List Nat)) (n : Nat) (last : Option Response) :
    (uploadLoop env total ident fname fid cs n last).1.map (fun q => q.data) = cs := by
  induction cs generalizing n last with
  | nil => rfl
  | cons c rest ih => simp [uploadLoop, ih]

theorem uploadLoop_last (env : UploadEnv) (total : Nat) (ident fname : String)
    (fid : Int) (cs : List (List Nat)) (n : Nat) (last : Option Response)
    (h : cs ≠ []) :
    (uploadLoop env total ident fname fid cs n last).2 =
      some (env.chunkResponse (n + cs.length)) := by
  induction cs generalizing n last with
  | nil => exact absurd rfl h
  | cons c rest ih =>
      by_cases h2 : rest = []
      · subst h2
        simp [uploadLoop]
      · have harith : n + 1 + rest.length = n + (rest.length + 1) := by omega
        simp only [uploadLoop, ih (n + 1) _ h2, List.length_cons, harith]

/-- The non-404 path of `upload_file` in terms of the loop. -/
theorem upload_file_pos (contents : List Nat) (fname ident : String) (fid : Int)
    (env : UploadEnv) (hok : ¬(fid ≠ 0 ∧ env.folderResponse.status_code = 404)) :
    upload_file true contents fname ident fid env =
      { folderCheck := decide (fid ≠ 0),
        chunkRequests := (uploadLoop env (mathCeilDiv contents.length chunk_size)
            ident fname fid (readChunks contents) 0
            (if fid ≠ 0 then some env.folderResponse else none)).1,
        result := .returned
          (match (uploadLoop env (mathCeilDiv contents.length chunk_size)
              ident fname fid (readChunks contents) 0
              (if fid ≠ 0 then some env.folderResponse else none)).2 with
            | some r => if r.ok ∧ r.status_code = 201 then r.json_id else some (-1)
            | none => some (-1)) } := by
  unfold upload_file
  rw [if_neg (by simp), if_neg hok]

theorem upload_file_chunkRequests (contents : List Nat) (fname ident : String)
    (fid : Int) (env : UploadEnv)
    (hok : ¬(fid ≠ 0 ∧ env.folderResponse.status_code = 404)) :
    (upload_file true contents fname ident fid env).chunkRequests =
      (uploadLoop env (mathCeilDiv contents.length chunk_size) ident fname fid
        (readChunks contents) 0
        (if fid ≠ 0 then some env.folderResponse else none)).1 := by
  rw [upload_file_pos _ _ _ _ _ hok]

theorem upload_file_result_eq (contents : List Nat) (fname ident : String)
    (fid : Int) (env : UploadEnv)
    (hok : ¬(fid ≠ 0 ∧ env.folderResponse.status_code = 404)) :
    (upload_file true contents fname ident fid env).result =
      .returned
        (match (uploadLoop env (mathCeilDiv contents.length chunk_size)
            ident fname fid (readChunks contents) 0
            (if fid ≠ 0 then some env.folderResponse else none)).2 with
          | some r => if r.ok ∧ r.status_code = 201 then r.json_id else some (-1)
          | none => some (-1)) := by
  rw [upload_file_pos _ _ _ _ _ hok]

/-- A concrete upload environment: the folder GET answers 200 and every
chunk POST answers 201 with id 42. -/
def env200 : UploadEnv :=
  { folderResponse := { status_code := 200 },
    chunkResponse := fun _ => { status_code := 201, json_id := some 42 } }

/-- A concrete upload environment whose folder GET answers 404. -/
def env404 : UploadEnv :=
  { folderResponse := { status_code := 404 },
    chunkResponse := fun _ => { status_code := 201, json_id := some 42 } }

/-! ## Claim theorems -/

/-- Claim C1, counterexample: `upload_file` does NOT use a chunk size of
1,000,000 bytes.  For an existing 1,000,001-byte file it sends exactly one
chunk request (the source constant is `chunk_size = 1024000`), whereas the
claimed count `ceil(S / 1,000,000)` is 2. -/
theorem upload_chunk_count_counterexample :
    (upload_file true (List.replicate 1000001 0) ("f.bin") ("uuid") 1
        env200).chunkRequests.length = 1
      ∧ (1000001 + 1000000 - 1) / 1000000 = 2
      ∧ (upload_file true (List.replicate 1000001 0) ("f.bin") ("uuid") 1
          env200).chunkRequests.length ≠ (1000001 + 1000000 - 1) / 1000000 := by
  have h1 : (upload_file true (List.replicate 1000001 0) ("f.bin") ("uuid") 1
      env200).chunkRequests.length = 1 := by
    rw [upload_file_chunkRequests _ _ _ _ _ (by decide), uploadLoop_length,
      readChunks_length, List.length_replicate]
    norm_num [mathCeilDiv, chunk_size]
  refine ⟨h1, by norm_num, ?_⟩
  rw [h1]
  norm_num

/-- Claim C1, amended: for every existing nonempty file whose upload is not
aborted by the folder check, `upload_file` sends exactly
`ceil(S / 1,024,000)` chunk requests (source constant `chunk_size =
1024000`, not 1,000,000); the chunk payloads concatenate to the file
contents, each read is at most `chunk_size` bytes, and every read except
possibly the last is exactly `chunk_size` bytes. -/
theorem upload_chunk_count (contents : List Nat) (fname ident : String)
    (fid : Int) (env : UploadEnv) (hS : contents ≠ [])
    (hok : ¬(fid ≠ 0 ∧ env.folderResponse.status_code = 404)) :
    (upload_file true contents fname ident fid env).chunkRequests.length
        = mathCeilDiv contents.length chunk_size
      ∧ ((upload_file true contents fname ident fid env).chunkRequests.map
          (fun q => q.data)).flatten = contents
      ∧ (∀ q ∈ (upload_file true contents fname ident fid env).chunkRequests,
          q.data.length ≤ chunk_size)
      ∧ (∀ q ∈ ((upload_file true contents fname ident fid env).chunkRequests).dropLast,
          q.data.length = chunk_size) := by
  rw [upload_file_chunkRequests _ _ _ _ _ hok]
  refine ⟨?_, ?_, ?_, ?_⟩
  · rw [uploadLoop_length, readChunks_length]
  · rw [uploadLoop_data, readChunks_flatten]
  · intro q hq
    have hd := uploadLoop_data env (mathCeilDiv contents.length chunk_size) ident fname fid
      (readChunks contents) 0 (if fid ≠ 0 then some env.folderResponse else none)
    have hmem : q.data ∈ readChunks contents := by
      rw [← hd]
      exact List.mem_map_of_mem _ hq
    exact readChunks_chunk_le contents _ hmem
  · intro q hq
    have hd := uploadLoop_data env (mathCeilDiv contents.length chunk_size) ident fname fid
      (readChunks contents) 0 (if fid ≠ 0 then some env.folderResponse else none)
    have hmem : q.data ∈ (readChunks contents).dropLast := by
      rw [← hd, ← List.map_dropLast]
      exact List.mem_map_of_mem _ hq
    exact readChunks_dropLast_full contents _ hmem

/-- Claim C1, witness: a one-byte file produces exactly one chunk request. -/
theorem upload_chunk_count_witness :
    (upload_file true [7] ("f.bin") ("uuid") 1 env200).chunkRequests.length = 1 := by
  have h := upload_chunk_count [7] ("f.bin") ("uuid") 1 env200 (by decide) (by decide)
  simpa [mathCeilDiv, chunk_size] using h.1

/-- Claim C4: for a nonempty file whose upload is not aborted, the result is
the parsed `id` of the last chunk's response exactly when that response has
status 201, and the `-1` sentinel for any other final status; responses to
non-final chunks do not appear in the result at all. -/
theorem upload_result_last_chunk (contents : List Nat) (fname ident : String)
    (fid : Int) (env : UploadEnv) (hS : contents ≠ [])
    (hok : ¬(fid ≠ 0 ∧ env.folderResponse.status_code = 404)) :
    (upload_file true contents fname ident fid env).result =
      (if (env.chunkResponse (mathCeilDiv contents.length chunk_size)).status_code = 201
        then UploadResult.returned
          (env.chunkResponse (mathCeilDiv contents.length chunk_size)).json_id
        else UploadResult.returned (some (-1))) := by
  rw [upload_file_result_eq _ _ _ _ _ hok,
    uploadLoop_last _ _ _ _ _ _ _ _ (readChunks_ne_nil contents hS),
    readChunks_length]
  simp only [Nat.zero_add]
  by_cases h : (env.chunkResponse (mathCeilDiv contents.length chunk_size)).status_code = 201
  · simp [h, Response.ok]
  · simp [h]

/-- Claim C4, witness: with every chunk answered 201 and id 42, a one-byte
upload returns 42. -/
theorem upload_result_last_chunk_witness :
    (upload_file true [7] ("f.bin") ("uuid") 1 env200).result =
      UploadResult.returned (some 42) := by
  have h := upload_result_last_chunk [7] ("f.bin") ("uuid") 1 env200 (by decide) (by decide)
  simpa [env200, mathCeilDiv, chunk_size] using h

/-- Claim C6: chunk numbers are 1-based and consecutive with no gaps
(`[1, ..., n]`), every chunk request carries the same declared total
`ceil(S / chunk_size)`, and the final chunk's number equals that total. -/
theorem upload_chunk_numbering (contents : List Nat) (fname ident : String)
    (fid : Int) (env : UploadEnv) (hS : contents ≠ [])
    (hok : ¬(fid ≠ 0 ∧ env.folderResponse.status_code = 404)) :
    (upload_file true contents fname ident fid env).chunkRequests.map
        (fun q => q.resumableChunkNumber)
      = List.range' 1 ((upload_file true contents fname ident fid env).chunkRequests.length)
    ∧ (∀ q ∈ (upload_file true contents fname ident fid env).chunkRequests,
        q.resumableTotalChunks = mathCeilDiv contents.length chunk_size)
    ∧ ((upload_file true contents fname ident fid env).chunkRequests.getLast?).map
        (fun q => q.resumableChunkNumber)
      = some (mathCeilDiv contents.length chunk_size) := by
  rw [upload_file_chunkRequests _ _ _ _ _ hok]
  refine ⟨?_, ?_, ?_⟩
  · rw [uploadLoop_numbers, uploadLoop_length]
  · exact uploadLoop_total env _ ident fname fid (readChunks contents) 0 _
  · have hc : 0 < chunk_size := by norm_num [chunk_size]
    have hl : 0 < contents.length := List.length_pos.mpr hS
    have hpos : 0 < mathCeilDiv contents.length chunk_size := by
      unfold mathCeilDiv
      exact Nat.div_pos (by omega) hc
    obtain ⟨m, hm⟩ := Nat.exists_eq_succ_of_ne_zero (Nat.pos_iff_ne_zero.mp hpos)
    rw [← List.getLast?_map, uploadLoop_numbers, readChunks_length, hm,
      List.range'_concat, List.getLast?_concat]
    congr 1
    omega

/-- Claim C6, witness: a one-byte upload numbers its single chunk 1. -/
theorem upload_chunk_numbering_witness :
    ((upload_file true [7] ("f.bin") ("uuid") 1 env200).chunkRequests.getLast?).map
      (fun q => q.resumableChunkNumber) = some 1 := by
  have h := upload_chunk_numbering [7] ("f.bin") ("uuid") 1 env200 (by decide) (by decide)
  simpa [mathCeilDiv, chunk_size] using h.2.2

/-- Claim C7: with a supplied (nonzero) folder id whose existence GET
answers 404, `upload_file` issues no chunk request and returns the `-1`
sentinel without raising. -/
theorem upload_folder_404 (contents : List Nat) (fname ident : String)
    (fid : Int) (env : UploadEnv) (hfid : fid ≠ 0)
    (h404 : env.folderResponse.status_code = 404) :
    upload_file true contents fname ident fid env =
      { folderCheck := true, chunkRequests := [],
        result := .returned (some (-1)) } := by
  unfold upload_file
  rw [if_neg (by simp), if_pos ⟨hfid, h404⟩]

/-- Claim C7, witness: the 404 abort on a concrete one-byte upload. -/
theorem upload_folder_404_witness :
    upload_file true [7] ("f.bin") ("uuid") 1 env404 =
      { folderCheck := true, chunkRequests := [],
        result := UploadResult.returned (some (-1)) } :=
  upload_folder_404 [7] ("f.bin") ("uuid") 1 env404 (by decide) (by decide)

/-- Claim C8: with a nonexistent local path, `upload_file` raises
`FileNotFoundError` having issued no network request at all — neither the
folder-existence GET nor any chunk POST. -/
theorem upload_file_not_found (contents : List Nat) (fname ident : String)
    (fid : Int) (env : UploadEnv) :
    upload_file false contents fname ident fid env =
      { folderCheck := false, chunkRequests := [],
        result := .raisedFileNotFound } := by
  unfold upload_file
  rw [if_pos rfl]

/-! ## Helper lemmas about the session -/

theorem processRefresh_calls (rr : ReqResult) : (processRefresh rr).calls = rr.calls := by
  obtain ⟨o, hh, cc, nn⟩ := rr
  cases o with
  | resp r => by_cases hr : raise_for_status_errors r <;> simp [processRefresh, hr]
  | connError => rfl
  | refreshExc => rfl
  | outOfFuel => rfl

theorem processRefresh_outOfFuel (rr : ReqResult) (h : rr.outcome = .outOfFuel) :
    (processRefresh rr).outcome = .outOfFuel := by
  obtain ⟨o, hh, cc, nn⟩ := rr
  cases o <;> simp_all [processRefresh]

theorem retryStep_calls_head (srv : Server) (method url options : String)
    (call : WireCall) (rr : RefreshResult) :
    (retryStep srv method url options call rr).calls.head? = some call := by
  obtain ⟨o, hh, cc, nn⟩ := rr
  cases o with
  | returned b =>
      cases b with
      | false => rfl
      | true =>
          unfold retryStep
          cases srv nn { method := method, url := url, options := options } hh <;> rfl
  | raised => rfl
  | outOfFuel => rfl

theorem retryStep_outOfFuel (srv : Server) (method url options : String)
    (call : WireCall) (rr : RefreshResult) (h : rr.outcome = .outOfFuel) :
    (retryStep srv method url options call rr).outcome = .outOfFuel := by
  obtain ⟨o, hh, cc, nn⟩ := rr
  cases o <;> simp_all [retryStep]

theorem request_first_not_401 (srv : Server) (api : String) (fuel k : Nat)
    (h : Headers) (method url options : String) (r : Response)
    (h1 : srv k { method := method, url := url, options := options } h = some r)
    (hn : r.status_code ≠ 401) :
    TokenRefreshSession.request srv api fuel k h method url options =
      { outcome := .resp r, headers := h,
        calls := [{ method := method, url := url, options := options, headers := h }],
        next := k + 1 } := by
  cases fuel with
  | zero => rw [request_zero]; simp [h1, hn]
  | succ n => rw [request_succ]; simp [h1, hn]

theorem request_conn_error (srv : Server) (api : String) (fuel k : Nat)
    (h : Headers) (method url options : String)
    (h1 : srv k { method := method, url := url, options := options } h = none) :
    TokenRefreshSession.request srv api fuel k h method url options =
      { outcome := .connError, headers := h,
        calls := [{ method := method, url := url, options := options, headers := h }],
        next := k + 1 } := by
  cases fuel with
  | zero => rw [request_zero]; simp [h1]
  | succ n => rw [request_succ]; simp [h1]

theorem request_calls_head (srv : Server) (api : String) (fuel k : Nat)
    (h : Headers) (method url options : String) :
    (TokenRefreshSession.request srv api fuel k h method url options).calls.head? =
      some { method := method, url := url, options := options, headers := h } := by
  cases fuel with
  | zero =>
      rw [request_zero]
      cases hsrv : srv k { method := method, url := url, options := options } h with
      | none => rfl
      | some r1 => by_cases h4 : r1.status_code = 401 <;> simp [h4]
  | succ n =>
      rw [request_succ]
      cases hsrv : srv k { method := method, url := url, options := options } h with
      | none => rfl
      | some r1 =>
          by_cases h4 : r1.status_code = 401
          · simp only [h4, if_pos]
            exact retryStep_calls_head srv method url options _ _
          · simp [h4]

/-! ## Session claim theorems -/

/-- Claim C2: if the first transport response to a request is 401 and the
(single) `_refresh_token` run reports success, the original request is
re-issued exactly once with the same method, URL and options (the headers
now being the refreshed session headers), and whatever response the retry
yields is returned as-is — even another failure; the full wire trace is
the original call, then exactly the refresh run's calls, then the one
retry. -/
theorem request_401_retry_once (srv : Server) (api : String) (fuel k : Nat)
    (h : Headers) (method url options : String) (r1 : Response)
    (rr : RefreshResult) (r2 : Response)
    (h1 : srv k { method := method, url := url, options := options } h = some r1)
    (h401 : r1.status_code = 401)
    (hrr : TokenRefreshSession._refresh_token srv api fuel (k + 1) h = rr)
    (hsucc : rr.outcome = .returned true)
    (h2 : srv rr.next { method := method, url := url, options := options } rr.headers
      = some r2) :
    TokenRefreshSession.request srv api (fuel + 1) k h method url options =
      { outcome := .resp r2, headers := rr.headers,
        calls := { method := method, url := url, options := options, headers := h }
          :: rr.calls
          ++ [{ method := method, url := url, options := options, headers := rr.headers }],
        next := rr.next + 1 } := by
  rw [request_succ]
  simp only [h1]
  rw [if_pos h401, hrr]
  simp only [retryStep, hsucc, h2]

/-- Claim C2, witness server: 401 first, a successful refresh, then a 500
on the retry (returned as-is). -/
def srvRetry : Server := fun k _req _h =>
  if k = 0 then some { status_code := 401 }
  else if k = 1 then some { status_code := 200, json_new_access_token := some ("tok2") }
  else some { status_code := 500 }

/-- Concrete initial session headers for the witnesses. -/
def hdr0 : Headers := { refresh_token := some ("rt"), access_token := none }

/-- The headers `hdr0` after a refresh that stored `tok2`. -/
def hdr2 : Headers := { refresh_token := some ("rt"), access_token := some ("tok2") }

/-- The refresh run of `srvRetry` starting at wire index 1. -/
def rrW : RefreshResult :=
  { outcome := .returned true, headers := hdr2,
    calls := [{ method := ("GET"), url := refreshUrl ("A"), options := (""), headers := hdr0 }],
    next := 2 }

/-- Claim C2, witness: the concrete 401 / refresh-success / retry-500 run. -/
theorem request_401_retry_once_witness :
    TokenRefreshSession.request srvRetry ("A") 1 0 hdr0 ("GET") ("u") ("o") =
      { outcome := .resp { status_code := 500 }, headers := hdr2,
        calls := [{ method := ("GET"), url := ("u"), options := ("o"), headers := hdr0 },
          { method := ("GET"), url := refreshUrl ("A"), options := (""), headers := hdr0 },
          { method := ("GET"), url := ("u"), options := ("o"), headers := hdr2 }],
        next := 3 } := by
  have hmain := request_401_retry_once srvRetry ("A") 0 0 hdr0 ("GET") ("u") ("o")
    { status_code := 401 } rrW { status_code := 500 } rfl rfl rfl rfl rfl
  simpa [rrW] using hmain

/-- Claim C3: if the first transport response is 401 and the (single)
`_refresh_token` run reports failure, `Exception("Token refresh failed")`
is raised and the original request is NOT re-issued: the wire trace is only
the original call followed by the refresh run's calls. -/
theorem request_401_refresh_failed (srv : Server) (api : String) (fuel k : Nat)
    (h : Headers) (method url options : String) (r1 : Response) (rr : RefreshResult)
    (h1 : srv k { method := method, url := url, options := options } h = some r1)
    (h401 : r1.status_code = 401)
    (hrr : TokenRefreshSession._refresh_token srv api fuel (k + 1) h = rr)
    (hfail : rr.outcome = .returned false) :
    TokenRefreshSession.request srv api (fuel + 1) k h method url options =
      { outcome := .refreshExc, headers := rr.headers,
        calls := { method := method, url := url, options := options, headers := h }
          :: rr.calls,
        next := rr.next } := by
  rw [request_succ]
  simp only [h1]
  rw [if_pos h401, hrr]
  simp only [retryStep, hfail]

/-- Claim C3, witness server: 401 first, then 500 on the refresh GET. -/
def srvFail : Server := fun k _req _h =>
  if k = 0 then some { status_code := 401 } else some { status_code := 500 }

/-- The failed refresh run of `srvFail` starting at wire index 1. -/
def rrF : RefreshResult :=
  { outcome := .returned false, headers := hdr0,
    calls := [{ method := ("GET"), url := refreshUrl ("A"), options := (""), headers := hdr0 }],
    next := 2 }

/-- Claim C3, witness: the concrete 401 / refresh-failure run raises and
does not retry. -/
theorem request_401_refresh_failed_witness :
    TokenRefreshSession.request srvFail ("A") 1 0 hdr0 ("GET") ("u") ("o") =
      { outcome := .refreshExc, headers := hdr0,
        calls := [{ method := ("GET"), url := ("u"), options := ("o"), headers := hdr0 },
          { method := ("GET"), url := refreshUrl ("A"), options := (""), headers := hdr0 }],
        next := 2 } := by
  have hmain := request_401_refresh_failed srvFail ("A") 0 0 hdr0 ("GET") ("u") ("o")
    { status_code := 401 } rrF rfl rfl rfl rfl
  simpa [rrF] using hmain

/-- Claim C9: `_refresh_token` (i) first issues a GET to
`api_server_url ++ "/auth/refresh"` with the current session headers;
(ii) on a non-error response it stores the body's `new_access_token` as the
access-token session header and returns `True`; (iii) on a transport error
(network failure) it returns `False` without raising; (iv) on a 4xx/5xx
response other than 401 (`raise_for_status` raising `HTTPError`) it returns
`False` without raising. -/
theorem refresh_token_spec (srv : Server) (api : String) (fuel k : Nat) (h : Headers) :
    ((TokenRefreshSession._refresh_token srv api fuel k h).calls.head? =
        some { method := ("GET"), url := api ++ ("/auth/refresh"), options := (""), headers := h })
    ∧ (∀ r, srv k { method := ("GET"), url := refreshUrl api, options := ("") } h = some r →
        r.status_code < 400 →
        TokenRefreshSession._refresh_token srv api fuel k h =
          { outcome := .returned true,
            headers := { h with access_token := r.json_new_access_token },
            calls := [{ method := ("GET"), url := refreshUrl api, options := (""), headers := h }],
            next := k + 1 })
    ∧ (srv k { method := ("GET"), url := refreshUrl api, options := ("") } h = none →
        TokenRefreshSession._refresh_token srv api fuel k h =
          { outcome := .returned false, headers := h,
            calls := [{ method := ("GET"), url := refreshUrl api, options := (""), headers := h }],
            next := k + 1 })
    ∧ (∀ r, srv k { method := ("GET"), url := refreshUrl api, options := ("") } h = some r →
        400 ≤ r.status_code → r.status_code < 600 → r.status_code ≠ 401 →
        TokenRefreshSession._refresh_token srv api fuel k h =
          { outcome := .returned false, headers := h,
            calls := [{ method := ("GET"), url := refreshUrl api, options := (""), headers := h }],
            next := k + 1 }) := by
  refine ⟨?_, ?_, ?_, ?_⟩
  · simp only [TokenRefreshSession._refresh_token]
    rw [processRefresh_calls, request_calls_head]
    rfl
  · intro r h1 hlt
    simp only [TokenRefreshSession._refresh_token,
      request_first_not_401 srv api fuel k h _ _ _ r h1 (by omega), processRefresh]
    rw [if_neg (by simp [raise_for_status_errors]; omega)]
  · intro h1
    simp only [TokenRefreshSession._refresh_token,
      request_conn_error srv api fuel k h _ _ _ h1, processRefresh]
  · intro r h1 hge hlt hne
    simp only [TokenRefreshSession._refresh_token,
      request_first_not_401 srv api fuel k h _ _ _ r h1 hne, processRefresh]
    rw [if_pos (by simp [raise_for_status_errors]; omega)]

/-- Claim C9, witness server: every request answered 200 with a fresh
token. -/
def srvOk : Server := fun _ _ _ =>
  some { status_code := 200, json_new_access_token := some ("t") }

/-- Claim C9, witness: on a concrete 200 refresh response the token is
stored and `True` returned. -/
theorem refresh_token_spec_witness :
    TokenRefreshSession._refresh_token srvOk ("A") 1 0 hdr0 =
      { outcome := .returned true,
        headers := { hdr0 with access_token := some ("t") },
        calls := [{ method := ("GET"), url := refreshUrl ("A"), options := (""), headers := hdr0 }],
        next := 1 } :=
  (refresh_token_spec srvOk ("A") 1 0 hdr0).2.1
    { status_code := 200, json_new_access_token := some ("t") } rfl (by norm_num)

/-- A server that answers 401 to every request, including the refresh GET. -/
def srv401 : Server := fun _ _ _ => some { status_code := 401 }

theorem request_srv401_outcome (api : String) :
    ∀ (fuel k : Nat) (h : Headers) (method url options : String),
      (TokenRefreshSession.request srv401 api fuel k h method url options).outcome
        = .outOfFuel := by
  intro fuel
  induction fuel with
  | zero =>
      intro k h method url options
      rw [request_zero]
      rfl
  | succ n ih =>
      intro k h method url options
      rw [request_succ]
      show (retryStep srv401 method url options
        { method := method, url := url, options := options, headers := h }
        (TokenRefreshSession._refresh_token srv401 api n (k + 1) h)).outcome = .outOfFuel
      apply retryStep_outOfFuel
      simp only [TokenRefreshSession._refresh_token]
      exact processRefresh_outOfFuel _ (ih (k + 1) h ("GET") (refreshUrl api) (""))

/-- Claim C10: the refresh GET is routed through the 401-intercepting
`request`, so against a server that always answers 401 (`srv401`) the
mutual recursion between `request` and `_refresh_token` never terminates:
no fuel bound suffices — every execution ends in `outOfFuel`. -/
theorem refresh_401_nontermination (api : String) (fuel k : Nat) (h : Headers)
    (method url options : String) :
    (TokenRefreshSession.request srv401 api fuel k h method url options).outcome
        = .outOfFuel
    ∧ (TokenRefreshSession._refresh_token srv401 api fuel k h).outcome = .outOfFuel := by
  constructor
  · exact request_srv401_outcome api fuel k h method url options
  · simp only [TokenRefreshSession._refresh_token]
    exact processRefresh_outOfFuel _
      (request_srv401_outcome api fuel k h ("GET") (refreshUrl api) (""))

/-! ## Workflow claim theorems -/

/-- Claim C5, counterexample: on a 500 response `get_workflow` returns
Python `None` and `delete_workflow` returns `False`; neither raises, contrary
to the claim that all four workflow operations raise whenever the status
differs from their success code. -/
theorem workflow_failure_counterexample :
    get_workflow { status_code := 500 } = .returns none
      ∧ delete_workflow { status_code := 500 } = .returns false := by
  constructor <;> rfl

/-- Claim C5, amended: on any status other than 200, `update_workflow` and
`run_workflow` raise `RuntimeError` and `get_workflow` returns `None`
(falling off the end) — including at 204; and for every status whatsoever,
`delete_workflow` never raises and returns exactly whether the status
equals 204 (so `True` at 204 and `False` at 200 among others). -/
theorem workflow_failure_behavior (r : Response) :
    (r.status_code ≠ 200 →
      update_workflow r = .raisesRuntimeError ("Error updating workflow.")
        ∧ run_workflow r = .raisesRuntimeError ("Error running workflow.")
        ∧ get_workflow r = .returns none)
    ∧ delete_workflow r = .returns (r.status_code == 204) := by
  constructor
  · intro h200
    refine ⟨?_, ?_, ?_⟩ <;> simp [update_workflow, run_workflow, get_workflow, h200]
  · rfl

/-- Claim C5, witness: status 204 exercises update/run raising and get
returning `None` despite 204 being delete's success code, and the delete
contract is exercised at both 204 (`True`) and 200 (`False`). -/
theorem workflow_failure_behavior_witness :
    (update_workflow { status_code := 204 } =
        PyOutcome.raisesRuntimeError ("Error updating workflow.")
      ∧ run_workflow { status_code := 204 } =
        PyOutcome.raisesRuntimeError ("Error running workflow.")
      ∧ get_workflow { status_code := 204 } = PyOutcome.returns none)
    ∧ delete_workflow { status_code := 204 } = PyOutcome.returns true
    ∧ delete_workflow { status_code := 200 } = PyOutcome.returns false :=
  ⟨(workflow_failure_behavior { status_code := 204 }).1 (by decide),
    by simpa using (workflow_failure_behavior { status_code := 204 }).2,
    by simpa using (workflow_failure_behavior { status_code := 200 }).2⟩

end OpenRelik
